import Mathlib

/-!
Verification of the AfterShip Go SDK (`trackings.go` and the rate-limit
check) against its natural-language specification.

Go strings are byte sequences; we embed them as `List Nat` (each element a
byte value).  Machine integers (`int`, `int64`) are embedded as `Int`: none
of the verified code performs arithmetic that can overflow, it only
compares.  Fallible Go functions returning `(T, error)` become
`Except GoError T` or `T × Option GoError`.  The effectful HTTP layer
(`client.makeRequest`, declared elsewhere in the repository) is embedded by
explicit trace passing: every client method returns its Go result together
with the list of HTTP requests it issued.
-/

set_option autoImplicit false

namespace Aftership

/-- A Go string, as its byte sequence. -/
abbrev GoStr := List Nat

/-- Byte sequence of an ASCII Lean string literal (used only for the
ASCII literals appearing in the Go source, where UTF-8 bytes and
code points coincide). -/
def goStr (s : String) : GoStr := s.data.map Char.toNat

/-- Errors produced via `errors.New` / `errors.Wrap` of github.com/pkg/errors:
either a fresh message or a wrapped cause with an annotation. -/
inductive GoError where
  | new (msg : GoStr)
  | wrap (cause : GoError) (msg : GoStr)
deriving DecidableEq, Repr

/-- Modelled from the spec: the error-message constant `errMissingTrackingID`
is declared in the repository outside `trackings.go` (error definitions
file, not under src/).  Its exact text is not load-bearing for any claim;
only its identity as a non-nil error matters. -/
def errMissingTrackingID : GoStr := goStr "tracking id is required"

/-- Modelled from the spec: the error-message constant
`errMissingSlugOrTrackingNumber`, declared outside `trackings.go`. -/
def errMissingSlugOrTrackingNumber : GoStr := goStr "slug or tracking number is required"

/-- Modelled from the spec: the error-message constant
`errMissingTrackingNumber`, declared outside `trackings.go`. -/
def errMissingTrackingNumber : GoStr := goStr "tracking number is required"

/-! ### Go standard library: `net/url.PathEscape`

`url.PathEscape(s)` is `escape(s, encodePathSegment)`.  A byte is left
unescaped iff it is an ASCII alphanumeric, one of the unreserved marks
`- _ . ~`, or one of the reserved characters `$ & + : = @` that
`shouldEscape` exempts in `encodePathSegment` mode; every other byte
becomes `%XX` with upper-case hex digits. -/

/-- Does `net/url.shouldEscape` escape byte `c` in `encodePathSegment`
mode?  Transcribed from the Go standard library. -/
def shouldEscapePathSegment (c : Nat) : Bool :=
  if (97 ≤ c ∧ c ≤ 122) ∨ (65 ≤ c ∧ c ≤ 90) ∨ (48 ≤ c ∧ c ≤ 57) then
    -- §2.3 unreserved alphanumerics
    false
  else if c = 45 ∨ c = 95 ∨ c = 46 ∨ c = 126 then
    -- '-' '_' '.' '~' : §2.3 unreserved marks
    false
  else if c = 36 ∨ c = 38 ∨ c = 43 ∨ c = 44 ∨ c = 47 ∨
          c = 58 ∨ c = 59 ∨ c = 61 ∨ c = 63 ∨ c = 64 then
    -- '$' '&' '+' ',' '/' ':' ';' '=' '?' '@' : §2.2 reserved characters;
    -- encodePathSegment keeps '$' '&' '+' ':' '=' '@' unescaped
    ¬(c = 36 ∨ c = 38 ∨ c = 43 ∨ c = 58 ∨ c = 61 ∨ c = 64)
  else
    true

/-- Hex digit of the Go table `upperhex = "0123456789ABCDEF"`;
`upperHexDigit n = upperhex[n]` for `n < 16` (inputs are always the two
nibbles of a byte). -/
def upperHexDigit (n : Nat) : Nat :=
  if n < 10 then 48 + n else 55 + n

/-- Bytes emitted for byte `c` by `net/url.escape`: the byte itself when
unescaped, else `'%'` followed by the two upper-case hex nibbles
(`upperhex[c>>4]`, `upperhex[c&15]`). -/
def escapeByte (c : Nat) : GoStr :=
  if shouldEscapePathSegment c then [37, upperHexDigit (c / 16), upperHexDigit (c % 16)]
  else [c]

/-- Function `net/url.PathEscape`: escape each byte of `s` for a URL path segment. -/
def pathEscape (s : GoStr) : GoStr :=
  s.flatMap escapeByte

/-! ### Rate limit (`ratelimit.go`) -/

/-- RateLimit is the X-RateLimit value in API response headers.
`Reset` is `int64`, `Limit` and `Remaining` are `int` in Go. -/
structure RateLimit where
  Reset : Int := 0
  Limit : Int := 0
  Remaining : Int := 0
deriving DecidableEq, Repr

/-- Method `RateLimit.isReached`.  The Go code reads the wall clock
(`time.Now().Unix()`); the embedding takes the current Unix timestamp as
the explicit argument `now`. -/
def RateLimit.isReached (rateLimit : RateLimit) (now : Int) : Bool :=
  rateLimit.Remaining == 0 && rateLimit.Reset ≥ now

/-! ### Tracking identifiers -/

/-- TrackingID is a unique identifier generated by AfterShip for the tracking. -/
abbrev TrackingID := GoStr

/-- Method `TrackingID.URIPath` returns the URL path of a TrackingID, or an error
for the empty identifier. -/
def TrackingID.URIPath (id : TrackingID) : Except GoError GoStr :=
  if id = [] then .error (.new errMissingTrackingID)
  else .ok (goStr "/" ++ pathEscape id)

/-- SlugTrackingNumber is a unique identifier for a single tracking by slug
and tracking number. -/
structure SlugTrackingNumber where
  Slug : GoStr := []
  TrackingNumber : GoStr := []
deriving DecidableEq, Repr

/-- Method `SlugTrackingNumber.URIPath` returns the URL path of a
SlugTrackingNumber (`fmt.Sprintf("/%s/%s", ...)` of the two escaped
components), or an error when either component is empty. -/
def SlugTrackingNumber.URIPath (stn : SlugTrackingNumber) : Except GoError GoStr :=
  if stn.Slug = [] ∨ stn.TrackingNumber = [] then
    .error (.new errMissingSlugOrTrackingNumber)
  else
    .ok (goStr "/" ++ pathEscape stn.Slug ++ goStr "/" ++ pathEscape stn.TrackingNumber)

/-- The `TrackingIdentifier` interface, realised in `trackings.go` by
exactly `TrackingID` and `SlugTrackingNumber`. -/
inductive TrackingIdentifier where
  | trackingID (id : TrackingID)
  | slugTrackingNumber (stn : SlugTrackingNumber)
deriving DecidableEq, Repr

/-- Dynamic dispatch of `URIPath` through the interface. -/
def TrackingIdentifier.URIPath : TrackingIdentifier → Except GoError GoStr
  | .trackingID id => id.URIPath
  | .slugTrackingNumber stn => stn.URIPath

/-! ### Auxiliary carriers for Go types that the verified logic never
inspects.  They are embedded as opaque data so that the structs below have
exactly the fields of the source; the Go zero value of each is recorded as
the field default. -/

/-- Values of `time.Time` are carried, never computed with; the embedding
keeps an uninterpreted nanosecond payload. -/
structure GoTime where
  unixNano : Int := 0
deriving DecidableEq, Repr

/-- Values of `float64` are carried, never computed with; the embedding keeps
the IEEE-754 bit pattern uninterpreted (zero value `0.0` is bits 0). -/
structure GoFloat64 where
  bits : Nat := 0
deriving DecidableEq, Repr

/-- Values of `float32`, embedded like `GoFloat64`. -/
structure GoFloat32 where
  bits : Nat := 0
deriving DecidableEq, Repr

/-- The type `map[string]string`, as an association list over byte strings (the map
is only marshalled, never queried, so ordering is irrelevant; the zero
value is the nil map `[]`). -/
abbrev GoStrMap := List (GoStr × GoStr)

/-- Modelled from the spec: the `Address` resource struct is declared in the
repository outside `trackings.go` and is only carried through
`EstimatedDeliveryDate`; no verified claim inspects it. -/
structure Address where
deriving DecidableEq, Repr

/-- Modelled from the spec: the `Weight` struct, declared outside
`trackings.go`, only carried. -/
structure Weight where
deriving DecidableEq, Repr

/-- Modelled from the spec: the `EstimatedPickup` struct, declared outside
`trackings.go`, only carried. -/
structure EstimatedPickup where
deriving DecidableEq, Repr

/-! ### Resource structs of `trackings.go` -/

structure PoofOfDelivery where
  Type' : GoStr := []
  Url : GoStr := []
deriving DecidableEq, Repr

structure NextCourier where
  Slug : GoStr := []
  TrackingNumber : GoStr := []
  Source : GoStr := []
deriving DecidableEq, Repr

/-- EstimatedDelivery represents a latest_estimated_delivery returned by
the Aftership API. -/
structure EstimatedDelivery where
  Type' : GoStr := []
  Source : GoStr := []
  Datetime : GoStr := []
  DatetimeMin : GoStr := []
  DatetimeMax : GoStr := []
deriving DecidableEq, Repr

/-- Checkpoint represents a checkpoint returned by the Aftership API. -/
structure Checkpoint where
  Slug : GoStr := []
  CreatedAt : Option GoTime := none
  CheckpointTime : GoStr := []
  City : GoStr := []
  Coordinates : List GoFloat32 := []
  CountryISO3 : GoStr := []
  CountryName : GoStr := []
  Message : GoStr := []
  State : GoStr := []
  Location : GoStr := []
  Tag : GoStr := []
  Subtag : GoStr := []
  SubtagMessage : GoStr := []
  Zip : GoStr := []
  RawTag : GoStr := []
deriving DecidableEq, Repr

/-- AdditionalField: courier-specific extra fields, embedded (in the Go
sense) in several params structs and in `Tracking`. -/
structure AdditionalField where
  TrackingAccountNumber : GoStr := []
  TrackingOriginCountry : GoStr := []
  TrackingDestinationCountry : GoStr := []
  TrackingKey : GoStr := []
  TrackingPostalCode : GoStr := []
  TrackingShipDate : GoStr := []
  TrackingState : GoStr := []
  OriginCountryISO3 : GoStr := []
  DestinationCountryISO3 : GoStr := []
  DestinationPostalCode : GoStr := []
  DestinationState : GoStr := []
deriving DecidableEq, Repr

/-- EstimatedDeliveryDate represents an aftership_estimated_delivery_date
returned by the Aftership API. -/
structure EstimatedDeliveryDate where
  Slug : GoStr := []
  ServiceTypeName : GoStr := []
  OriginAddress : Option Address := none
  DestinationAddress : Option Address := none
  Weight : Option Weight := none
  PackageCount : Int := 0
  PickupTime : GoStr := []
  EstimatedPickup : Option EstimatedPickup := none
  EstimatedDeliveryDate' : GoStr := []
  ConfidenceScore : GoFloat64 := {}
  EstimatedDeliveryDateMin : GoStr := []
  EstimatedDeliveryDateMax : GoStr := []
deriving DecidableEq, Repr

/-- CreateTrackingParams provides parameters for new Tracking API request. -/
structure CreateTrackingParams where
  TrackingNumber : GoStr := []
  Slug : GoStr := []
  Title : GoStr := []
  OrderID : GoStr := []
  OrderIDPath : GoStr := []
  CustomFields : GoStrMap := []
  Language : GoStr := []
  OrderPromisedDeliveryDate : GoStr := []
  OriginState : GoStr := []
  OriginCity : GoStr := []
  OriginPostalCode : GoStr := []
  OriginRawLocation : GoStr := []
  DeliveryType : GoStr := []
  PickupLocation : GoStr := []
  PickupNote : GoStr := []
  additionalField : AdditionalField := {}
  IOS : List GoStr := []
  Android : List GoStr := []
  Emails : List GoStr := []
  SMSes : List GoStr := []
  CustomerName : GoStr := []
  DestinationRawLocation : GoStr := []
  Note : GoStr := []
  SlugGroup : GoStr := []
  OrderDate : GoStr := []
  OrderNumber : GoStr := []
  ShipmentType : GoStr := []
  ShipmentTags : List GoStr := []
  CourierConnectionId : GoStr := []
  NextCouriers : List NextCourier := []
deriving DecidableEq, Repr

/-- Tracking represents a Tracking returned by the AfterShip API. -/
structure Tracking where
  ID : GoStr := []
  CreatedAt : Option GoTime := none
  UpdatedAt : Option GoTime := none
  LastUpdatedAt : Option GoTime := none
  TrackingNumber : GoStr := []
  Slug : GoStr := []
  Active : Bool := false
  CustomFields : GoStrMap := []
  CustomerName : GoStr := []
  TransitTime : Int := 0
  DestinationCountryISO3 : GoStr := []
  DestinationCity : GoStr := []
  DestinationRawLocation : GoStr := []
  CourierDestinationCountryISO3 : GoStr := []
  Emails : List GoStr := []
  ExpectedDelivery : GoStr := []
  Note : GoStr := []
  OrderID : GoStr := []
  OrderIDPath : GoStr := []
  OrderDate : GoStr := []
  OriginCountryISO3 : GoStr := []
  ShipmentPackageCount : Int := 0
  ShipmentPickupDate : GoStr := []
  ShipmentDeliveryDate : GoStr := []
  ShipmentType : GoStr := []
  ShipmentWeight : GoFloat64 := {}
  ShipmentWeightUnit : GoStr := []
  SignedBy : GoStr := []
  SMSes : List GoStr := []
  Source : GoStr := []
  Tag : GoStr := []
  Subtag : GoStr := []
  SubtagMessage : GoStr := []
  Title : GoStr := []
  TrackedCount : Int := 0
  LastMileTrackingSupported : Bool := false
  Language : GoStr := []
  UniqueToken : GoStr := []
  Checkpoints : List Checkpoint := []
  SubscribedSMSes : List GoStr := []
  SubscribedEmails : List GoStr := []
  ReturnToSender : Bool := false
  OrderPromisedDeliveryDate : GoStr := []
  DeliveryType : GoStr := []
  PickupLocation : GoStr := []
  PickupNote : GoStr := []
  CourierTrackingLink : GoStr := []
  FirstAttemptedAt : GoStr := []
  CourierRedirectLink : GoStr := []
  additionalField : AdditionalField := {}
  OnTimeStatus : GoStr := []
  OnTimeDifference : Int := 0
  OrderTags : List GoStr := []
  EstimatedDeliveryDate : EstimatedDeliveryDate := {}
  CustomEstimatedDeliveryDate : EstimatedDelivery := {}
  FirstEstimatedDelivery : EstimatedDelivery := {}
  OrderNumber : GoStr := []
  LatestEstimatedDelivery : EstimatedDelivery := {}
  ShipmentTags : List GoStr := []
  CourierConnectionId : GoStr := []
  NextCouriers : List NextCourier := []
  Poof : List PoofOfDelivery := []
deriving DecidableEq, Repr

/-- The Go zero value `Tracking{}`. -/
def Tracking.zero : Tracking := {}

/-- GetTrackingParams is the additional parameters in single tracking query. -/
structure GetTrackingParams where
  Fields : GoStr := []
  Lang : GoStr := []
  additionalField : AdditionalField := {}
deriving DecidableEq, Repr

/-- UpdateTrackingParams represents an update to Tracking details. -/
structure UpdateTrackingParams where
  SMSes : List GoStr := []
  Emails : List GoStr := []
  Title : GoStr := []
  CustomerName : GoStr := []
  OrderID : GoStr := []
  OrderIDPath : GoStr := []
  CustomFields : GoStrMap := []
  Note : GoStr := []
  Language : GoStr := []
  OrderPromisedDeliveryDate : GoStr := []
  DeliveryType : GoStr := []
  PickupLocation : GoStr := []
  PickupNote : GoStr := []
  Slug : GoStr := []
  additionalField : AdditionalField := {}
  OrderNumber : GoStr := []
  OrderDate : GoStr := []
  ShipmentType : GoStr := []
  OriginState : GoStr := []
  OriginCity : GoStr := []
  OriginPostalCode : GoStr := []
  OriginRawLocation : GoStr := []
  DestinationRawLocation : GoStr := []
deriving DecidableEq, Repr

/-- GetTrackingsParams represents the set of params for get Trackings API. -/
structure GetTrackingsParams where
  CourierDestinationCountryIso3 : GoStr := []
  CreatedAtMax : GoStr := []
  CreatedAtMin : GoStr := []
  Destination : GoStr := []
  Fields : GoStr := []
  Keyword : GoStr := []
  Limit : Int := 0
  Origin : GoStr := []
  Page : Int := 0
  ReturnToSender : GoStr := []
  ShipmentTags : GoStr := []
  Slug : GoStr := []
  Tag : GoStr := []
  TrackingNumbers : GoStr := []
  TransitTime : Int := 0
  UpdatedAtMax : GoStr := []
  UpdatedAtMin : GoStr := []
deriving DecidableEq, Repr

/-- PagedTrackings is a model for data part of the multiple trackings API
responses. -/
structure PagedTrackings where
  Limit : Int := 0
  Count : Int := 0
  Page : Int := 0
  Keyword : GoStr := []
  Slug : GoStr := []
  Origin : List GoStr := []
  Destination : List GoStr := []
  Tag : GoStr := []
  CreatedAtMin : Option GoTime := none
  CreatedAtMax : Option GoTime := none
  LastUpdatedAt : Option GoTime := none
  ReturnToSender : List Bool := []
  CourierDestinationCountryIso3 : List GoStr := []
  Trackings : List Tracking := []
deriving DecidableEq, Repr

/-- trackingWrapper is a model for data part of the single tracking API
responses; its single field carries the json key `"tracking"`. -/
structure trackingWrapper where
  Tracking : Tracking := {}
deriving DecidableEq, Repr

/-- TrackingCompletedStatus is status to make the tracking as completed
(a Go string type). -/
abbrev TrackingCompletedStatus := GoStr

/-- reason DELIVERED to make the tracking as completed -/
def TrackingCompletedStatusDelivered : TrackingCompletedStatus := goStr "DELIVERED"

/-- reason LOST to make the tracking as completed -/
def TrackingCompletedStatusLost : TrackingCompletedStatus := goStr "LOST"

/-- reason RETURNED_TO_SENDER to make the tracking as completed -/
def TrackingCompletedStatusReturnedToSender : TrackingCompletedStatus := goStr "RETURNED_TO_SENDER"

/-- createTrackingRequest is a model for create tracking API request; its
single field carries the json key `"tracking"`. -/
structure createTrackingRequest where
  Tracking : CreateTrackingParams := {}
deriving DecidableEq, Repr

/-- updateTrackingRequest is a model for update tracking API request; its
single field carries the json key `"tracking"`. -/
structure updateTrackingRequest where
  Tracking : UpdateTrackingParams := {}
deriving DecidableEq, Repr

/-- markAsCompletedRequest is a model for update tracking as completed API
request; its single field carries the json key `"reason"`. -/
structure markAsCompletedRequest where
  Reason : GoStr := []
deriving DecidableEq, Repr

/-! ### The HTTP layer

`client.makeRequest(ctx, method, uri, queryParams, inputData, resultData)`
is declared in the repository outside `trackings.go`.  Here the tracking
methods are embedded against an abstract transport: a request records
exactly the arguments `trackings.go` passes to `makeRequest`, the client
carries one response function per result type (`makeRequest` decodes into
the caller-supplied `resultData` and returns an error), and each method
additionally returns the trace of requests it issued. -/

/-- Constant `net/http.MethodGet`. -/
def MethodGet : GoStr := goStr "GET"

/-- Constant `net/http.MethodPost`. -/
def MethodPost : GoStr := goStr "POST"

/-- Constant `net/http.MethodPut`. -/
def MethodPut : GoStr := goStr "PUT"

/-- Constant `net/http.MethodDelete`. -/
def MethodDelete : GoStr := goStr "DELETE"

/-- The `queryParams interface{}` argument of `makeRequest`: `trackings.go`
passes either nil, a `GetTrackingParams` or a `GetTrackingsParams`. -/
inductive QueryParams where
  | getTracking (params : GetTrackingParams)
  | getTrackings (params : GetTrackingsParams)
deriving DecidableEq, Repr

/-- The `inputData interface{}` argument of `makeRequest`: `trackings.go`
passes either nil or one of the three request-body wrapper structs. -/
inductive RequestBody where
  | create (req : createTrackingRequest)
  | update (req : updateTrackingRequest)
  | markAsCompleted (req : markAsCompletedRequest)
deriving DecidableEq, Repr

/-- The top-level json key under which a request body marshals, read off
the json struct tags (`json:"tracking"` on both wrapper structs,
`json:"reason"` on `markAsCompletedRequest`). -/
def RequestBody.jsonTopLevelKey : RequestBody → GoStr
  | .create _ => goStr "tracking"
  | .update _ => goStr "tracking"
  | .markAsCompleted _ => goStr "reason"

/-- One HTTP request as issued by a tracking method: exactly the
`(method, uri, queryParams, inputData)` tuple handed to `makeRequest`. -/
structure HTTPRequest where
  method : GoStr := []
  uri : GoStr := []
  queryParams : Option QueryParams := none
  inputData : Option RequestBody := none
deriving DecidableEq, Repr

/-- Type `context.Context` is carried opaquely and never inspected by
`trackings.go`. -/
structure Context where
deriving DecidableEq, Repr

/-- Modelled from the spec: the `Client` struct and its generic request
helper `makeRequest` live outside `trackings.go`.  The helper serializes
parameters, attaches authentication, sends the request, decodes the
response envelope into the caller's result value and returns an error; the
embedding abstracts it as one response function per decode target
(`trackingWrapper` for the single-tracking methods, `PagedTrackings` for
`GetTrackings`), each returning the decoded value and the error. -/
structure Client where
  respondTracking : HTTPRequest → trackingWrapper × Option GoError
  respondPaged : HTTPRequest → PagedTrackings × Option GoError

/-- CreateTracking creates a new tracking. -/
def Client.CreateTracking (client : Client) (_ctx : Context)
    (params : CreateTrackingParams) : (Tracking × Option GoError) × List HTTPRequest :=
  if params.TrackingNumber = [] then
    ((Tracking.zero, some (.new errMissingTrackingNumber)), [])
  else
    let req : HTTPRequest :=
      { method := MethodPost, uri := goStr "/trackings",
        queryParams := none, inputData := some (.create { Tracking := params }) }
    let res := client.respondTracking req
    ((res.1.Tracking, res.2), [req])

/-- DeleteTracking deletes a tracking. -/
def Client.DeleteTracking (client : Client) (_ctx : Context)
    (identifier : TrackingIdentifier) : (Tracking × Option GoError) × List HTTPRequest :=
  match identifier.URIPath with
  | .error err => ((Tracking.zero, some (.wrap err (goStr "error deleting tracking"))), [])
  | .ok uriPath =>
    let req : HTTPRequest :=
      { method := MethodDelete, uri := goStr "/trackings" ++ uriPath,
        queryParams := none, inputData := none }
    let res := client.respondTracking req
    ((res.1.Tracking, res.2), [req])

/-- GetTrackings gets tracking results of multiple trackings. -/
def Client.GetTrackings (client : Client) (_ctx : Context)
    (params : GetTrackingsParams) : (PagedTrackings × Option GoError) × List HTTPRequest :=
  let req : HTTPRequest :=
    { method := MethodGet, uri := goStr "/trackings",
      queryParams := some (.getTrackings params), inputData := none }
  let res := client.respondPaged req
  ((res.1, res.2), [req])

/-- GetTracking gets tracking results of a single tracking. -/
def Client.GetTracking (client : Client) (_ctx : Context)
    (identifier : TrackingIdentifier) (params : GetTrackingParams) :
    (Tracking × Option GoError) × List HTTPRequest :=
  match identifier.URIPath with
  | .error err => ((Tracking.zero, some (.wrap err (goStr "error getting tracking"))), [])
  | .ok uriPath =>
    let req : HTTPRequest :=
      { method := MethodGet, uri := goStr "/trackings" ++ uriPath,
        queryParams := some (.getTracking params), inputData := none }
    let res := client.respondTracking req
    ((res.1.Tracking, res.2), [req])

/-- UpdateTracking updates a tracking. -/
def Client.UpdateTracking (client : Client) (_ctx : Context)
    (identifier : TrackingIdentifier) (params : UpdateTrackingParams) :
    (Tracking × Option GoError) × List HTTPRequest :=
  match identifier.URIPath with
  | .error err => ((Tracking.zero, some (.wrap err (goStr "error updating tracking"))), [])
  | .ok uriPath =>
    let req : HTTPRequest :=
      { method := MethodPut, uri := goStr "/trackings" ++ uriPath,
        queryParams := none, inputData := some (.update { Tracking := params }) }
    let res := client.respondTracking req
    ((res.1.Tracking, res.2), [req])

/-- RetrackTracking retracks an expired tracking. -/
def Client.RetrackTracking (client : Client) (_ctx : Context)
    (identifier : TrackingIdentifier) : (Tracking × Option GoError) × List HTTPRequest :=
  match identifier.URIPath with
  | .error err => ((Tracking.zero, some (.wrap err (goStr "error retracking"))), [])
  | .ok uriPath =>
    let req : HTTPRequest :=
      { method := MethodPost, uri := goStr "/trackings" ++ uriPath ++ goStr "/retrack",
        queryParams := none, inputData := none }
    let res := client.respondTracking req
    ((res.1.Tracking, res.2), [req])

/-- MarkTrackingAsCompleted marks a tracking as completed. -/
def Client.MarkTrackingAsCompleted (client : Client) (_ctx : Context)
    (identifier : TrackingIdentifier) (status : TrackingCompletedStatus) :
    (Tracking × Option GoError) × List HTTPRequest :=
  match identifier.URIPath with
  | .error err =>
    ((Tracking.zero, some (.wrap err (goStr "error marking tracking as completed"))), [])
  | .ok uriPath =>
    let req : HTTPRequest :=
      { method := MethodPost,
        uri := goStr "/trackings" ++ uriPath ++ goStr "/mark-as-completed",
        queryParams := none, inputData := some (.markAsCompleted { Reason := status }) }
    let res := client.respondTracking req
    ((res.1.Tracking, res.2), [req])

/-! ### The generic request pipeline

Modelled from the spec: the body of `makeRequest` is not under src/ (only
its call sites are), so the pipeline below follows the spec's words —
"serialize params → sign/auth → send → decode envelope → classify errors by
status code/headers into typed error kinds including rate-limit backoff
hints" — over an abstract wire transport and abstract serializers. -/

/-- The processing stages of the generic request helper. -/
inductive PipelineStage where
  | serializeParams
  | attachAuth
  | send
  | decodeEnvelope
  | classifyErrors
deriving DecidableEq, Repr

/-- A request as put on the wire, after serialization and authentication. -/
structure WireRequest where
  method : GoStr := []
  uri : GoStr := []
  headers : List (GoStr × GoStr) := []
  body : GoStr := []

/-- A raw HTTP response: status code, headers and body. -/
structure WireResponse where
  statusCode : Int := 0
  headers : List (GoStr × GoStr) := []
  body : GoStr := []

/-- Typed error kinds the pipeline classifies failures into. -/
inductive APIError where
  | rateLimitExceeded (rateLimit : RateLimit)
  | apiError (statusCode : Int) (body : GoStr)
deriving DecidableEq, Repr

/-- First value of a response header, empty when absent. -/
def headerValue (headers : List (GoStr × GoStr)) (key : GoStr) : GoStr :=
  ((headers.find? (fun kv => kv.1 == key)).map Prod.snd).getD []

/-- Decimal value of a header string (headers carrying X-RateLimit values
are decimal integers). -/
def parseDecimal (s : GoStr) : Int :=
  s.foldl (fun acc c => acc * 10 + ((c : Int) - 48)) 0

/-- The rate-limit backoff hint read from the X-RateLimit response
headers. -/
def rateLimitFromHeaders (headers : List (GoStr × GoStr)) : RateLimit :=
  { Reset := parseDecimal (headerValue headers (goStr "x-ratelimit-reset"))
    Limit := parseDecimal (headerValue headers (goStr "x-ratelimit-limit"))
    Remaining := parseDecimal (headerValue headers (goStr "x-ratelimit-remaining")) }

/-- Stage 5: classify the outcome by status code and headers.  A 2xx
response keeps the decoded envelope; 429 becomes the typed rate-limit
error carrying the backoff hint; any other status becomes a typed API
error. -/
def classifyResponse {α : Type} (resp : WireResponse) (decoded : α × Option APIError) :
    α × Option APIError :=
  if 200 ≤ resp.statusCode ∧ resp.statusCode < 300 then decoded
  else if resp.statusCode = 429 then
    (decoded.1, some (.rateLimitExceeded (rateLimitFromHeaders resp.headers)))
  else
    (decoded.1, some (.apiError resp.statusCode resp.body))

/-- Stages 1–2: the wire request built from a method request — query and
body serialized by the abstract serializers, authentication attached as
the api-key header. -/
def wireRequestOf (apiKey : GoStr) (serializeQuery : Option QueryParams → GoStr)
    (serializeBody : Option RequestBody → GoStr) (req : HTTPRequest) : WireRequest :=
  { method := req.method
    uri := req.uri ++ serializeQuery req.queryParams
    headers := [(goStr "aftership-api-key", apiKey),
                (goStr "Content-Type", goStr "application/json")]
    body := serializeBody req.inputData }

/-- The generic request helper, as the spec describes it: serialize the
parameters, attach authentication, send over the transport, decode the
response envelope, classify errors.  Returns the outcome together with
the trace of stages executed. -/
def makeRequestModel {α : Type} (apiKey : GoStr)
    (transport : WireRequest → WireResponse)
    (serializeQuery : Option QueryParams → GoStr)
    (serializeBody : Option RequestBody → GoStr)
    (decodeInto : GoStr → α × Option APIError) (req : HTTPRequest) :
    (α × Option APIError) × List PipelineStage :=
  let wireReq := wireRequestOf apiKey serializeQuery serializeBody req
  let resp := transport wireReq
  let decoded := decodeInto resp.body
  (classifyResponse resp decoded,
   [.serializeParams, .attachAuth, .send, .decodeEnvelope, .classifyErrors])

/-! ### Lemmas about path escaping -/

theorem upperHexDigit_ne_slash (n : Nat) : upperHexDigit n ≠ 47 := by
  unfold upperHexDigit
  split <;> omega

theorem shouldEscape_slash : shouldEscapePathSegment 47 = true := by decide

theorem slash_not_mem_escapeByte (c : Nat) : 47 ∉ escapeByte c := by
  unfold escapeByte
  split
  · intro hmem
    rcases List.mem_cons.mp hmem with h | hmem
    · omega
    rcases List.mem_cons.mp hmem with h | hmem
    · exact upperHexDigit_ne_slash _ h.symm
    rcases List.mem_cons.mp hmem with h | hmem
    · exact upperHexDigit_ne_slash _ h.symm
    · exact (List.not_mem_nil _ hmem)
  · intro hmem
    rcases List.mem_cons.mp hmem with h | hmem
    · subst h
      rename_i hesc
      exact hesc shouldEscape_slash
    · exact (List.not_mem_nil _ hmem)

theorem count_slash_escapeByte (c : Nat) : (escapeByte c).count 47 = 0 :=
  List.count_eq_zero.mpr (slash_not_mem_escapeByte c)

theorem count_slash_pathEscape (s : GoStr) : (pathEscape s).count 47 = 0 := by
  induction s with
  | nil => rfl
  | cons c cs ih =>
    have : pathEscape (c :: cs) = escapeByte c ++ pathEscape cs := rfl
    rw [this, List.count_append, count_slash_escapeByte, ih]

/-! ### Claim theorems: rate limit -/

/-- C1: for every `RateLimit` value and every current Unix timestamp `now`,
`isReached` returns `true` if and only if the `Remaining` field equals 0
and the `Reset` field is greater than or equal to `now`. -/
theorem isReached_eq_remaining_zero_and_reset_ge_now (rateLimit : RateLimit) (now : Int) :
    rateLimit.isReached now = true ↔ rateLimit.Remaining = 0 ∧ rateLimit.Reset ≥ now := by
  simp [RateLimit.isReached, Bool.and_eq_true, beq_iff_eq, decide_eq_true_eq]

/-- C8: the rate-limit-exceeded check depends only on the `Remaining` and
`Reset` fields: two `RateLimit` values agreeing on those two fields give
the same `isReached` result at the same current time, whatever their
`Limit` fields. -/
theorem isReached_depends_only_on_remaining_and_reset
    (r₁ r₂ : RateLimit) (now : Int)
    (hrem : r₁.Remaining = r₂.Remaining) (hres : r₁.Reset = r₂.Reset) :
    r₁.isReached now = r₂.isReached now := by
  simp [RateLimit.isReached, hrem, hres]

/-- Witness for C8: two values differing only in `Limit` (1 vs 99) agree. -/
theorem isReached_depends_only_on_remaining_and_reset_witness :
    RateLimit.isReached { Reset := 5, Limit := 1, Remaining := 0 } 3 =
      RateLimit.isReached { Reset := 5, Limit := 99, Remaining := 0 } 3 :=
  isReached_depends_only_on_remaining_and_reset
    { Reset := 5, Limit := 1, Remaining := 0 }
    { Reset := 5, Limit := 99, Remaining := 0 } 3 rfl rfl

/-! ### Claim theorems: URIPath -/

/-- C9: for a non-empty `TrackingID`, `URIPath` returns `"/"` followed by
the path-escaped identifier, and the result contains exactly one `'/'`
byte (47); for a `SlugTrackingNumber` with non-empty components,
`URIPath` returns `"/" ++ escaped slug ++ "/" ++ escaped tracking number`,
containing exactly two `'/'` bytes — even when the inputs themselves
contain `'/'` or other reserved bytes. -/
theorem uriPath_shape_and_slash_count :
    (∀ id : TrackingID, id ≠ [] →
      id.URIPath = .ok (goStr "/" ++ pathEscape id) ∧
      (goStr "/" ++ pathEscape id).count 47 = 1) ∧
    (∀ stn : SlugTrackingNumber, stn.Slug ≠ [] → stn.TrackingNumber ≠ [] →
      stn.URIPath =
        .ok (goStr "/" ++ pathEscape stn.Slug ++ goStr "/" ++ pathEscape stn.TrackingNumber) ∧
      (goStr "/" ++ pathEscape stn.Slug ++ goStr "/" ++ pathEscape stn.TrackingNumber).count 47
        = 2) := by
  constructor
  · intro id hid
    refine ⟨by simp [TrackingID.URIPath, hid], ?_⟩
    rw [List.count_append, count_slash_pathEscape]
    decide
  · intro stn hs ht
    constructor
    · simp [SlugTrackingNumber.URIPath, hs, ht]
    · rw [List.count_append, List.count_append, List.count_append,
        count_slash_pathEscape, count_slash_pathEscape]
      decide

/-- Witness for C9: the identifier `"a/b"` (which contains a slash) and the
slug/tracking-number pair `("a/b", "c d")`. -/
theorem uriPath_shape_and_slash_count_witness :
    (TrackingID.URIPath (goStr "a/b") = .ok (goStr "/" ++ pathEscape (goStr "a/b")) ∧
      (goStr "/" ++ pathEscape (goStr "a/b")).count 47 = 1) ∧
    (SlugTrackingNumber.URIPath { Slug := goStr "a/b", TrackingNumber := goStr "c d" } =
        .ok (goStr "/" ++ pathEscape (goStr "a/b") ++ goStr "/" ++ pathEscape (goStr "c d")) ∧
      (goStr "/" ++ pathEscape (goStr "a/b") ++ goStr "/" ++
        pathEscape (goStr "c d")).count 47 = 2) :=
  ⟨uriPath_shape_and_slash_count.1 (goStr "a/b") (by decide),
   uriPath_shape_and_slash_count.2 { Slug := goStr "a/b", TrackingNumber := goStr "c d" }
     (by decide) (by decide)⟩

/-! ### Claim theorems: client methods -/

instance {ε α : Type} [DecidableEq ε] [DecidableEq α] : DecidableEq (Except ε α) := by
  intro a b
  cases a <;> cases b
  case error.error e₁ e₂ =>
    exact match decEq e₁ e₂ with
      | isTrue h => isTrue (by rw [h])
      | isFalse h => isFalse (fun hc => h (Except.error.inj hc))
  case ok.ok a₁ a₂ =>
    exact match decEq a₁ a₂ with
      | isTrue h => isTrue (by rw [h])
      | isFalse h => isFalse (fun hc => h (Except.ok.inj hc))
  case error.ok e a => exact isFalse (fun hc => Except.noConfusion hc)
  case ok.error a e => exact isFalse (fun hc => Except.noConfusion hc)

/-- A client whose abstract transport returns zero values and no error;
used to instantiate witnesses. -/
def nullClient : Client :=
  { respondTracking := fun _ => ({}, none)
    respondPaged := fun _ => ({}, none) }

/-- The identifier used by witnesses: the tracking id `"abc"`. -/
def witnessIdent : TrackingIdentifier := .trackingID (goStr "abc")

/-- C2: every single-tracking CRUD method builds its URL as `"/trackings"`
concatenated with the identifier's `URIPath`; `RetrackTracking` appends
`"/retrack"`, `MarkTrackingAsCompleted` appends `"/mark-as-completed"`,
and `CreateTracking` and `GetTrackings` use the fixed path
`"/trackings"`. -/
theorem tracking_methods_uri_paths
    (client : Client) (ctx : Context) (identifier : TrackingIdentifier) (p : GoStr)
    (getParams : GetTrackingParams) (updParams : UpdateTrackingParams)
    (status : TrackingCompletedStatus) (createParams : CreateTrackingParams)
    (listParams : GetTrackingsParams)
    (h : identifier.URIPath = .ok p) :
    (client.GetTracking ctx identifier getParams).2.map HTTPRequest.uri =
      [goStr "/trackings" ++ p] ∧
    (client.DeleteTracking ctx identifier).2.map HTTPRequest.uri =
      [goStr "/trackings" ++ p] ∧
    (client.UpdateTracking ctx identifier updParams).2.map HTTPRequest.uri =
      [goStr "/trackings" ++ p] ∧
    (client.RetrackTracking ctx identifier).2.map HTTPRequest.uri =
      [goStr "/trackings" ++ p ++ goStr "/retrack"] ∧
    (client.MarkTrackingAsCompleted ctx identifier status).2.map HTTPRequest.uri =
      [goStr "/trackings" ++ p ++ goStr "/mark-as-completed"] ∧
    (∀ r ∈ (client.CreateTracking ctx createParams).2, r.uri = goStr "/trackings") ∧
    (client.GetTrackings ctx listParams).2.map HTTPRequest.uri = [goStr "/trackings"] := by
  refine ⟨?_, ?_, ?_, ?_, ?_, ?_, ?_⟩
  · simp [Client.GetTracking, h]
  · simp [Client.DeleteTracking, h]
  · simp [Client.UpdateTracking, h]
  · simp [Client.RetrackTracking, h]
  · simp [Client.MarkTrackingAsCompleted, h]
  · by_cases hc : createParams.TrackingNumber = [] <;> simp [Client.CreateTracking, hc]
  · simp [Client.GetTrackings]

/-- Witness for C2 at the tracking id `"abc"` (whose escaped path is
`"/abc"`) and zero-valued parameters. -/
theorem tracking_methods_uri_paths_witness :
    (nullClient.GetTracking {} witnessIdent {}).2.map HTTPRequest.uri =
      [goStr "/trackings" ++ goStr "/abc"] ∧
    (nullClient.DeleteTracking {} witnessIdent).2.map HTTPRequest.uri =
      [goStr "/trackings" ++ goStr "/abc"] ∧
    (nullClient.UpdateTracking {} witnessIdent {}).2.map HTTPRequest.uri =
      [goStr "/trackings" ++ goStr "/abc"] ∧
    (nullClient.RetrackTracking {} witnessIdent).2.map HTTPRequest.uri =
      [goStr "/trackings" ++ goStr "/abc" ++ goStr "/retrack"] ∧
    (nullClient.MarkTrackingAsCompleted {} witnessIdent
        TrackingCompletedStatusDelivered).2.map HTTPRequest.uri =
      [goStr "/trackings" ++ goStr "/abc" ++ goStr "/mark-as-completed"] ∧
    (∀ r ∈ (nullClient.CreateTracking {} {}).2, r.uri = goStr "/trackings") ∧
    (nullClient.GetTrackings {} {}).2.map HTTPRequest.uri = [goStr "/trackings"] :=
  tracking_methods_uri_paths nullClient {} witnessIdent (goStr "/abc") {} {}
    TrackingCompletedStatusDelivered {} {} (by decide)

/-- C3: every single-tracking method returns the `Tracking` unwrapped from
the `"tracking"` field of the decoded `trackingWrapper` envelope together
with the request's error, and `GetTrackings` returns the decoded
`PagedTrackings` with the request's error. -/
theorem tracking_methods_unwrap_envelope
    (client : Client) (ctx : Context) (identifier : TrackingIdentifier) (p : GoStr)
    (getParams : GetTrackingParams) (updParams : UpdateTrackingParams)
    (status : TrackingCompletedStatus) (createParams : CreateTrackingParams)
    (listParams : GetTrackingsParams)
    (h : identifier.URIPath = .ok p)
    (hc : createParams.TrackingNumber ≠ []) :
    (∃ r, (client.GetTracking ctx identifier getParams).2 = [r] ∧
      (client.GetTracking ctx identifier getParams).1 =
        ((client.respondTracking r).1.Tracking, (client.respondTracking r).2)) ∧
    (∃ r, (client.DeleteTracking ctx identifier).2 = [r] ∧
      (client.DeleteTracking ctx identifier).1 =
        ((client.respondTracking r).1.Tracking, (client.respondTracking r).2)) ∧
    (∃ r, (client.UpdateTracking ctx identifier updParams).2 = [r] ∧
      (client.UpdateTracking ctx identifier updParams).1 =
        ((client.respondTracking r).1.Tracking, (client.respondTracking r).2)) ∧
    (∃ r, (client.RetrackTracking ctx identifier).2 = [r] ∧
      (client.RetrackTracking ctx identifier).1 =
        ((client.respondTracking r).1.Tracking, (client.respondTracking r).2)) ∧
    (∃ r, (client.MarkTrackingAsCompleted ctx identifier status).2 = [r] ∧
      (client.MarkTrackingAsCompleted ctx identifier status).1 =
        ((client.respondTracking r).1.Tracking, (client.respondTracking r).2)) ∧
    (∃ r, (client.CreateTracking ctx createParams).2 = [r] ∧
      (client.CreateTracking ctx createParams).1 =
        ((client.respondTracking r).1.Tracking, (client.respondTracking r).2)) ∧
    (∃ r, (client.GetTrackings ctx listParams).2 = [r] ∧
      (client.GetTrackings ctx listParams).1 =
        ((client.respondPaged r).1, (client.respondPaged r).2)) := by
  refine ⟨?_, ?_, ?_, ?_, ?_, ?_, ?_⟩
  · simp only [Client.GetTracking, h]
    exact ⟨_, rfl, rfl⟩
  · simp only [Client.DeleteTracking, h]
    exact ⟨_, rfl, rfl⟩
  · simp only [Client.UpdateTracking, h]
    exact ⟨_, rfl, rfl⟩
  · simp only [Client.RetrackTracking, h]
    exact ⟨_, rfl, rfl⟩
  · simp only [Client.MarkTrackingAsCompleted, h]
    exact ⟨_, rfl, rfl⟩
  · simp only [Client.CreateTracking, if_neg hc]
    exact ⟨_, rfl, rfl⟩
  · exact ⟨_, rfl, rfl⟩

/-- Witness for C3 at the tracking id `"abc"` and a create request with
tracking number `"t"`. -/
theorem tracking_methods_unwrap_envelope_witness :
    (∃ r, (nullClient.GetTracking {} witnessIdent {}).2 = [r] ∧
      (nullClient.GetTracking {} witnessIdent {}).1 =
        ((nullClient.respondTracking r).1.Tracking, (nullClient.respondTracking r).2)) ∧
    (∃ r, (nullClient.DeleteTracking {} witnessIdent).2 = [r] ∧
      (nullClient.DeleteTracking {} witnessIdent).1 =
        ((nullClient.respondTracking r).1.Tracking, (nullClient.respondTracking r).2)) ∧
    (∃ r, (nullClient.UpdateTracking {} witnessIdent {}).2 = [r] ∧
      (nullClient.UpdateTracking {} witnessIdent {}).1 =
        ((nullClient.respondTracking r).1.Tracking, (nullClient.respondTracking r).2)) ∧
    (∃ r, (nullClient.RetrackTracking {} witnessIdent).2 = [r] ∧
      (nullClient.RetrackTracking {} witnessIdent).1 =
        ((nullClient.respondTracking r).1.Tracking, (nullClient.respondTracking r).2)) ∧
    (∃ r, (nullClient.MarkTrackingAsCompleted {} witnessIdent
        TrackingCompletedStatusDelivered).2 = [r] ∧
      (nullClient.MarkTrackingAsCompleted {} witnessIdent
          TrackingCompletedStatusDelivered).1 =
        ((nullClient.respondTracking r).1.Tracking, (nullClient.respondTracking r).2)) ∧
    (∃ r, (nullClient.CreateTracking {} { TrackingNumber := goStr "t" }).2 = [r] ∧
      (nullClient.CreateTracking {} { TrackingNumber := goStr "t" }).1 =
        ((nullClient.respondTracking r).1.Tracking, (nullClient.respondTracking r).2)) ∧
    (∃ r, (nullClient.GetTrackings {} {}).2 = [r] ∧
      (nullClient.GetTrackings {} {}).1 =
        ((nullClient.respondPaged r).1, (nullClient.respondPaged r).2)) :=
  tracking_methods_unwrap_envelope nullClient {} witnessIdent (goStr "/abc") {} {}
    TrackingCompletedStatusDelivered { TrackingNumber := goStr "t" } {}
    (by decide) (by decide)

/-- C4: each tracking operation uses the HTTP method matching its CRUD
role — POST for `CreateTracking`, `RetrackTracking` and
`MarkTrackingAsCompleted`, GET for `GetTracking` and `GetTrackings`, PUT
for `UpdateTracking`, DELETE for `DeleteTracking`. -/
theorem tracking_methods_http_methods
    (client : Client) (ctx : Context) (identifier : TrackingIdentifier) (p : GoStr)
    (getParams : GetTrackingParams) (updParams : UpdateTrackingParams)
    (status : TrackingCompletedStatus) (createParams : CreateTrackingParams)
    (listParams : GetTrackingsParams)
    (h : identifier.URIPath = .ok p) :
    (∀ r ∈ (client.CreateTracking ctx createParams).2, r.method = MethodPost) ∧
    (client.RetrackTracking ctx identifier).2.map HTTPRequest.method = [MethodPost] ∧
    (client.MarkTrackingAsCompleted ctx identifier status).2.map HTTPRequest.method =
      [MethodPost] ∧
    (client.GetTracking ctx identifier getParams).2.map HTTPRequest.method = [MethodGet] ∧
    (client.GetTrackings ctx listParams).2.map HTTPRequest.method = [MethodGet] ∧
    (client.UpdateTracking ctx identifier updParams).2.map HTTPRequest.method = [MethodPut] ∧
    (client.DeleteTracking ctx identifier).2.map HTTPRequest.method = [MethodDelete] := by
  refine ⟨?_, ?_, ?_, ?_, ?_, ?_, ?_⟩
  · by_cases hc : createParams.TrackingNumber = [] <;> simp [Client.CreateTracking, hc]
  · simp [Client.RetrackTracking, h]
  · simp [Client.MarkTrackingAsCompleted, h]
  · simp [Client.GetTracking, h]
  · simp [Client.GetTrackings]
  · simp [Client.UpdateTracking, h]
  · simp [Client.DeleteTracking, h]

/-- Witness for C4 at the tracking id `"abc"`. -/
theorem tracking_methods_http_methods_witness :
    (∀ r ∈ (nullClient.CreateTracking {} {}).2, r.method = MethodPost) ∧
    (nullClient.RetrackTracking {} witnessIdent).2.map HTTPRequest.method = [MethodPost] ∧
    (nullClient.MarkTrackingAsCompleted {} witnessIdent
        TrackingCompletedStatusDelivered).2.map HTTPRequest.method = [MethodPost] ∧
    (nullClient.GetTracking {} witnessIdent {}).2.map HTTPRequest.method = [MethodGet] ∧
    (nullClient.GetTrackings {} {}).2.map HTTPRequest.method = [MethodGet] ∧
    (nullClient.UpdateTracking {} witnessIdent {}).2.map HTTPRequest.method = [MethodPut] ∧
    (nullClient.DeleteTracking {} witnessIdent).2.map HTTPRequest.method = [MethodDelete] :=
  tracking_methods_http_methods nullClient {} witnessIdent (goStr "/abc") {} {}
    TrackingCompletedStatusDelivered {} {} (by decide)

/-- C5: whenever `URIPath` fails — the empty `TrackingID`, or a
`SlugTrackingNumber` with an empty `Slug` or `TrackingNumber` (last
conjunct: those are exactly the failures) — each identifier-taking method
returns the zero `Tracking` and a non-nil wrapped error, issuing no HTTP
request (empty trace). -/
theorem identifier_methods_fail_without_request
    (client : Client) (ctx : Context) (identifier : TrackingIdentifier)
    (getParams : GetTrackingParams) (updParams : UpdateTrackingParams)
    (status : TrackingCompletedStatus) (e : GoError)
    (h : identifier.URIPath = .error e) :
    client.GetTracking ctx identifier getParams =
      ((Tracking.zero, some (.wrap e (goStr "error getting tracking"))), []) ∧
    client.DeleteTracking ctx identifier =
      ((Tracking.zero, some (.wrap e (goStr "error deleting tracking"))), []) ∧
    client.UpdateTracking ctx identifier updParams =
      ((Tracking.zero, some (.wrap e (goStr "error updating tracking"))), []) ∧
    client.RetrackTracking ctx identifier =
      ((Tracking.zero, some (.wrap e (goStr "error retracking"))), []) ∧
    client.MarkTrackingAsCompleted ctx identifier status =
      ((Tracking.zero, some (.wrap e (goStr "error marking tracking as completed"))), []) ∧
    (∀ ident : TrackingIdentifier,
      (∃ e', ident.URIPath = .error e') ↔
        (ident = .trackingID [] ∨
          ∃ s t, ident = .slugTrackingNumber ⟨s, t⟩ ∧ (s = [] ∨ t = []))) := by
  refine ⟨?_, ?_, ?_, ?_, ?_, ?_⟩
  · simp [Client.GetTracking, h]
  · simp [Client.DeleteTracking, h]
  · simp [Client.UpdateTracking, h]
  · simp [Client.RetrackTracking, h]
  · simp [Client.MarkTrackingAsCompleted, h]
  · intro ident
    cases ident with
    | trackingID id =>
      by_cases hid : id = [] <;>
        simp [TrackingIdentifier.URIPath, TrackingID.URIPath, hid]
    | slugTrackingNumber stn =>
      obtain ⟨s, t⟩ := stn
      by_cases hst : s = [] ∨ t = [] <;>
        simp [TrackingIdentifier.URIPath, SlugTrackingNumber.URIPath, hst]
      · exact ⟨s, t, ⟨rfl, rfl⟩, hst⟩
      · exact not_or.mp hst

/-- Witness for C5 at the empty `TrackingID`. -/
theorem identifier_methods_fail_without_request_witness :
    nullClient.GetTracking {} (.trackingID []) {} =
      ((Tracking.zero, some (.wrap (.new errMissingTrackingID)
        (goStr "error getting tracking"))), []) ∧
    nullClient.DeleteTracking {} (.trackingID []) =
      ((Tracking.zero, some (.wrap (.new errMissingTrackingID)
        (goStr "error deleting tracking"))), []) ∧
    nullClient.UpdateTracking {} (.trackingID []) {} =
      ((Tracking.zero, some (.wrap (.new errMissingTrackingID)
        (goStr "error updating tracking"))), []) ∧
    nullClient.RetrackTracking {} (.trackingID []) =
      ((Tracking.zero, some (.wrap (.new errMissingTrackingID)
        (goStr "error retracking"))), []) ∧
    nullClient.MarkTrackingAsCompleted {} (.trackingID []) TrackingCompletedStatusLost =
      ((Tracking.zero, some (.wrap (.new errMissingTrackingID)
        (goStr "error marking tracking as completed"))), []) := by
  have H := identifier_methods_fail_without_request nullClient {} (.trackingID []) {} {}
    TrackingCompletedStatusLost (.new errMissingTrackingID) (by decide)
  exact ⟨H.1, H.2.1, H.2.2.1, H.2.2.2.1, H.2.2.2.2.1⟩

/-- C6: `CreateTracking` with an empty `TrackingNumber` returns the zero
`Tracking` and a non-nil error without issuing any HTTP request, and with
a non-empty `TrackingNumber` it proceeds to send the request. -/
theorem createTracking_requires_tracking_number
    (client : Client) (ctx : Context) (params : CreateTrackingParams) :
    (params.TrackingNumber = [] →
      client.CreateTracking ctx params =
        ((Tracking.zero, some (.new errMissingTrackingNumber)), [])) ∧
    (params.TrackingNumber ≠ [] →
      ∃ r, (client.CreateTracking ctx params).2 = [r]) := by
  constructor
  · intro h
    simp [Client.CreateTracking, h]
  · intro h
    simp only [Client.CreateTracking, if_neg h]
    exact ⟨_, rfl⟩

/-- Witness for C6: the zero params value (empty tracking number) fails
without a request; params with tracking number `"t"` issue exactly one
request. -/
theorem createTracking_requires_tracking_number_witness :
    nullClient.CreateTracking {} {} =
      ((Tracking.zero, some (.new errMissingTrackingNumber)), []) ∧
    (∃ r, (nullClient.CreateTracking {} { TrackingNumber := goStr "t" }).2 = [r]) :=
  ⟨(createTracking_requires_tracking_number nullClient {} {}).1 rfl,
   (createTracking_requires_tracking_number nullClient {}
      { TrackingNumber := goStr "t" }).2 (by decide)⟩

/-- C7: the mutating operations wrap their payload in a JSON envelope —
`CreateTracking` sends `createTrackingRequest` (params under the top-level
`"tracking"` key), `UpdateTracking` sends `updateTrackingRequest` (params
under `"tracking"`), and `MarkTrackingAsCompleted` sends a
`markAsCompletedRequest` whose `Reason` field is the string value of the
given `TrackingCompletedStatus`. -/
theorem mutating_methods_request_bodies
    (client : Client) (ctx : Context) (identifier : TrackingIdentifier) (p : GoStr)
    (updParams : UpdateTrackingParams) (status : TrackingCompletedStatus)
    (createParams : CreateTrackingParams)
    (h : identifier.URIPath = .ok p) :
    (∀ r ∈ (client.CreateTracking ctx createParams).2,
      r.inputData = some (.create { Tracking := createParams }) ∧
      (RequestBody.create { Tracking := createParams }).jsonTopLevelKey =
        goStr "tracking") ∧
    ((client.UpdateTracking ctx identifier updParams).2.map HTTPRequest.inputData =
        [some (.update { Tracking := updParams })] ∧
      (RequestBody.update { Tracking := updParams }).jsonTopLevelKey = goStr "tracking") ∧
    ((client.MarkTrackingAsCompleted ctx identifier status).2.map HTTPRequest.inputData =
        [some (.markAsCompleted { Reason := status })] ∧
      (markAsCompletedRequest.mk status).Reason = status ∧
      (RequestBody.markAsCompleted { Reason := status }).jsonTopLevelKey =
        goStr "reason") := by
  refine ⟨?_, ⟨?_, rfl⟩, ⟨?_, rfl, rfl⟩⟩
  · by_cases hc : createParams.TrackingNumber = [] <;>
      simp [Client.CreateTracking, hc, RequestBody.jsonTopLevelKey]
  · simp [Client.UpdateTracking, h]
  · simp [Client.MarkTrackingAsCompleted, h]

/-- Witness for C7 at the tracking id `"abc"` and completion status
DELIVERED. -/
theorem mutating_methods_request_bodies_witness :
    (∀ r ∈ (nullClient.CreateTracking {} { TrackingNumber := goStr "t" }).2,
      r.inputData = some (.create { Tracking := { TrackingNumber := goStr "t" } }) ∧
      (RequestBody.create
        { Tracking := { TrackingNumber := goStr "t" } }).jsonTopLevelKey =
          goStr "tracking") ∧
    ((nullClient.UpdateTracking {} witnessIdent {}).2.map HTTPRequest.inputData =
        [some (.update { Tracking := {} })] ∧
      (RequestBody.update { Tracking := {} }).jsonTopLevelKey = goStr "tracking") ∧
    ((nullClient.MarkTrackingAsCompleted {} witnessIdent
        TrackingCompletedStatusDelivered).2.map HTTPRequest.inputData =
        [some (.markAsCompleted { Reason := TrackingCompletedStatusDelivered })] ∧
      (markAsCompletedRequest.mk TrackingCompletedStatusDelivered).Reason =
        TrackingCompletedStatusDelivered ∧
      (RequestBody.markAsCompleted
        { Reason := TrackingCompletedStatusDelivered }).jsonTopLevelKey =
          goStr "reason") :=
  mutating_methods_request_bodies nullClient {} witnessIdent (goStr "/abc") {}
    TrackingCompletedStatusDelivered { TrackingNumber := goStr "t" } (by decide)

/-- C10: the generic request helper processes each request in the order
serialize parameters → attach authentication → send → decode the response
envelope → classify errors; classification is by status code and headers
into typed error kinds: 2xx keeps the decoded envelope, 429 becomes a
typed rate-limit error carrying the backoff hint parsed from the
X-RateLimit headers, and any other status a typed API error. -/
theorem makeRequest_pipeline_order_and_classification {α : Type} (apiKey : GoStr)
    (transport : WireRequest → WireResponse)
    (serializeQuery : Option QueryParams → GoStr)
    (serializeBody : Option RequestBody → GoStr)
    (decodeInto : GoStr → α × Option APIError) (req : HTTPRequest) :
    (makeRequestModel apiKey transport serializeQuery serializeBody decodeInto req).2 =
      [.serializeParams, .attachAuth, .send, .decodeEnvelope, .classifyErrors] ∧
    (makeRequestModel apiKey transport serializeQuery serializeBody decodeInto req).1 =
      classifyResponse (transport (wireRequestOf apiKey serializeQuery serializeBody req))
        (decodeInto
          (transport (wireRequestOf apiKey serializeQuery serializeBody req)).body) ∧
    (wireRequestOf apiKey serializeQuery serializeBody req).headers.map Prod.fst =
      [goStr "aftership-api-key", goStr "Content-Type"] ∧
    (∀ (resp : WireResponse) (d : α × Option APIError),
      classifyResponse resp d =
        if 200 ≤ resp.statusCode ∧ resp.statusCode < 300 then d
        else if resp.statusCode = 429 then
          (d.1, some (.rateLimitExceeded (rateLimitFromHeaders resp.headers)))
        else (d.1, some (.apiError resp.statusCode resp.body))) :=
  ⟨rfl, rfl, rfl, fun _ _ => rfl⟩

end Aftership
